import Mathlib

/-!
Shallow embedding of the IP valuation engine
(`src/ip_valuation_engine.py`, `src/auto_assumptions.py`) over exact
rational arithmetic.  Python floats are modelled as `ℚ`; Python
exceptions are modelled by `Except PyError`; Python float division by
zero (which raises `ZeroDivisionError`) is modelled by explicit guards
placed exactly where the source would raise.
-/

/-- The Python exceptions the engine can raise, as traced in the source:
`ValueError` for a failed fetch, an unmatched segment, or an unknown
valuation method; `IndexError` from `segment_revenues[-1]` on an empty
list; `ZeroDivisionError` from float division by zero. -/
inductive PyError where
  | fetchError
  | segmentNotFound
  | unknownMethod
  | indexError
  | zeroDivisionError
  deriving DecidableEq, Repr

/-- One entry of the `yearly_details` ledger built by
`relief_from_royalty`. -/
structure YearDetail where
  year : ℕ
  revenue : ℚ
  royalty_savings : ℚ
  discount_factor : ℚ
  present_value : ℚ
  deriving DecidableEq, Repr

/-- The result dictionary of `relief_from_royalty`. -/
structure RfRResult where
  pv_explicit_period : ℚ
  pv_terminal_value : ℚ
  total_value : ℚ
  yearly_details : List YearDetail
  deriving DecidableEq, Repr

/-- Embedding of `IPValuationEngine.relief_from_royalty`
(src/ip_valuation_engine.py lines 271-334).  The explicit-period loop
divides each after-tax royalty by `(1 + wacc) ** year`; with a nonempty
revenue list and `1 + wacc = 0` the first iteration raises
`ZeroDivisionError` in Python, hence the leading guard.  The terminal
block indexes `segment_revenues[-1]` (IndexError on an empty list) and
divides by `wacc - terminal_growth` (ZeroDivisionError when zero).
The explicit-forecast loop body is factored out as `rfrYearlyDetails`:
one ledger row per `(year, revenue)` pair of
`enumerate(segment_revenues, start=1)`. -/
def rfrYearlyDetails (segment_revenues : List ℚ) (royalty_rate tax_rate wacc
    attribution_pct : ℚ) : List YearDetail :=
  (List.enumFrom 1 segment_revenues).map (fun p =>
    let annual_royalty_savings := p.2 * royalty_rate * (1 - tax_rate) * attribution_pct
    let discount_factor := (1 + wacc) ^ p.1
    { year := p.1, revenue := p.2, royalty_savings := annual_royalty_savings,
      discount_factor := discount_factor,
      present_value := annual_royalty_savings / discount_factor : YearDetail })

def relief_from_royalty (segment_revenues : List ℚ) (royalty_rate tax_rate wacc
    attribution_pct terminal_growth : ℚ) : Except PyError RfRResult :=
  if segment_revenues ≠ [] ∧ 1 + wacc = 0 then .error .zeroDivisionError
  else
    let yearly_details := rfrYearlyDetails segment_revenues royalty_rate tax_rate wacc
      attribution_pct
    let pv_royalties := (yearly_details.map (fun d => d.present_value)).sum
    if hlast : segment_revenues = [] then .error .indexError
    else if wacc - terminal_growth = 0 then .error .zeroDivisionError
    else
      let last_revenue := segment_revenues.getLast hlast
      let terminal_revenue := last_revenue * (1 + terminal_growth)
      let terminal_royalty := terminal_revenue * royalty_rate * (1 - tax_rate) * attribution_pct
      let terminal_value := terminal_royalty / (wacc - terminal_growth)
      let pv_terminal := terminal_value / (1 + wacc) ^ segment_revenues.length
      .ok { pv_explicit_period := pv_royalties, pv_terminal_value := pv_terminal,
            total_value := pv_royalties + pv_terminal, yearly_details := yearly_details }

/-- `total_value` of a `relief_from_royalty` call, read through the
`Except` wrapper (0 when the call raises). -/
def rfrTotalValue (segment_revenues : List ℚ) (royalty_rate tax_rate wacc
    attribution_pct terminal_growth : ℚ) : ℚ :=
  match relief_from_royalty segment_revenues royalty_rate tax_rate wacc
      attribution_pct terminal_growth with
  | .ok r => r.total_value
  | .error _ => 0

/-- `pv_terminal_value` of a `relief_from_royalty` call (0 when the call
raises). -/
def rfrTerminal (segment_revenues : List ℚ) (royalty_rate tax_rate wacc
    attribution_pct terminal_growth : ℚ) : ℚ :=
  match relief_from_royalty segment_revenues royalty_rate tax_rate wacc
      attribution_pct terminal_growth with
  | .ok r => r.pv_terminal_value
  | .error _ => 0

/-- The per-claim closed form of the Relief-from-Royalty total, written
exactly as the specification states it: the sum over years `1..N` of
`revenue × royalty × (1 − tax) × attribution / (1 + w) ^ year`, plus the
Gordon-growth terminal value `rN (1 + g) royalty (1 − tax) attribution /
(w − g)` discounted back `N` years. -/
def rfrSpecFormula (revs : List ℚ) (royalty_rate tax_rate w attribution g : ℚ) : ℚ :=
  (∑ i ∈ Finset.range revs.length,
      revs.getD i 0 * royalty_rate * (1 - tax_rate) * attribution / (1 + w) ^ (i + 1))
  + revs.getLastD 0 * (1 + g) * royalty_rate * (1 - tax_rate) * attribution
      / (w - g) / (1 + w) ^ revs.length

/-- The result dictionary of `multi_period_excess_earnings` (the yearly
ledger is omitted; no claim mentions it). -/
structure MPEEResult where
  pv_explicit_period : ℚ
  pv_terminal_value : ℚ
  total_value : ℚ
  deriving DecidableEq, Repr

/-- Embedding of `IPValuationEngine.multi_period_excess_earnings`
(src/ip_valuation_engine.py lines 336-428).  `contributory_assets` is
the items view of the Python dict: `(asset_type, return_rate)` pairs.
Each yearly charge uses the proxy `asset_value_proxy = revenue * 0.5`.
Division hazards mirror `relief_from_royalty`: `(1 + wacc) ** year` in
the loop, `segment_revenues[-1]` on an empty list, and
`wacc - terminal_growth` in the perpetuity. -/
def multi_period_excess_earnings (segment_revenues : List ℚ) (operating_margin : ℚ)
    (contributory_assets : List (String × ℚ))
    (ip_contribution_pct wacc tax_rate terminal_growth : ℚ) : Except PyError MPEEResult :=
  if segment_revenues ≠ [] ∧ 1 + wacc = 0 then .error .zeroDivisionError
  else
    let pv_excess_earnings := ((List.enumFrom 1 segment_revenues).map (fun p =>
      let operating_income := p.2 * operating_margin
      let total_cac := (contributory_assets.map (fun ca => (p.2 * 0.5) * ca.2)).sum
      let excess_earnings := operating_income - total_cac
      let ip_earnings := excess_earnings * ip_contribution_pct
      let ip_cash_flow := ip_earnings * (1 - tax_rate)
      ip_cash_flow / (1 + wacc) ^ p.1)).sum
    if hlast : segment_revenues = [] then .error .indexError
    else if wacc - terminal_growth = 0 then .error .zeroDivisionError
    else
      let last_revenue := segment_revenues.getLast hlast
      let terminal_revenue := last_revenue * (1 + terminal_growth)
      let terminal_operating_income := terminal_revenue * operating_margin
      let terminal_cac := (contributory_assets.map (fun ca => ca.2)).sum * terminal_revenue * 0.5
      let terminal_excess := terminal_operating_income - terminal_cac
      let terminal_ip_cf := terminal_excess * ip_contribution_pct * (1 - tax_rate)
      let terminal_value := terminal_ip_cf / (wacc - terminal_growth)
      let pv_terminal := terminal_value / (1 + wacc) ^ segment_revenues.length
      .ok { pv_explicit_period := pv_excess_earnings, pv_terminal_value := pv_terminal,
            total_value := pv_excess_earnings + pv_terminal }

/-- The result dictionary of `technology_factor_valuation`. -/
structure TechResult where
  total_value : ℚ
  technology_factor : ℚ
  adjusted_royalty_rate : ℚ
  deriving DecidableEq, Repr

/-- Embedding of `IPValuationEngine.technology_factor_valuation`
(src/ip_valuation_engine.py lines 430-515).  The blended factor divides
by `total_patent_life` (ZeroDivisionError when 0).  The projection is
capped at `min(len(segment_revenues), remaining_life_years)`; inside the
loop `year <= len(segment_revenues)` always holds, so the
`segment_revenues[-1]` branch of the source is dead and each year reads
`segment_revenues[year - 1]`.  The decay divides by
`remaining_life_years * 1.5`, nonzero whenever the loop runs; the
discount divides by `(1 + wacc) ** year` (ZeroDivisionError when
`wacc = -1` and the loop runs).  No terminal value is computed. -/
def technology_factor_valuation (segment_revenues : List ℚ)
    (base_royalty_rate innovation_score commercial_score legal_strength_score : ℚ)
    (remaining_life_years total_patent_life : ℕ) (tax_rate wacc : ℚ) :
    Except PyError TechResult :=
  if total_patent_life = 0 then .error .zeroDivisionError
  else
    let tech_factor := innovation_score * 0.30 + commercial_score * 0.35 +
      legal_strength_score * 0.25 +
      ((remaining_life_years : ℚ) / (total_patent_life : ℚ)) * 0.10
    let adjusted_royalty_rate := base_royalty_rate * (1 + tech_factor)
    let projection_years := min segment_revenues.length remaining_life_years
    if 0 < projection_years ∧ 1 + wacc = 0 then .error .zeroDivisionError
    else
      let pv_royalties := ((List.range projection_years).map (fun i =>
        let year := i + 1
        let revenue := segment_revenues.getD (year - 1) 0
        let decay := max (1 - (year : ℚ) / ((remaining_life_years : ℚ) * 1.5)) 0.3
        let annual_royalty_savings := revenue * adjusted_royalty_rate * (1 - tax_rate) * decay
        annual_royalty_savings / (1 + wacc) ^ year)).sum
      .ok { total_value := pv_royalties, technology_factor := tech_factor,
            adjusted_royalty_rate := adjusted_royalty_rate }

/-- `total_value` of a `technology_factor_valuation` call (0 when the
call raises). -/
def techTotalValue (segment_revenues : List ℚ)
    (base_royalty_rate innovation_score commercial_score legal_strength_score : ℚ)
    (remaining_life_years total_patent_life : ℕ) (tax_rate wacc : ℚ) : ℚ :=
  match technology_factor_valuation segment_revenues base_royalty_rate innovation_score
      commercial_score legal_strength_score remaining_life_years total_patent_life
      tax_rate wacc with
  | .ok r => r.total_value
  | .error _ => 0

/-- The claimed closed form of the Technology Factor total, written as
the specification states it: the sum over years
`1..min(length, remaining_life)` of
`revenue × base × (1 + tech_factor) × (1 − tax) × max(1 − year/(remaining × 1.5), 0.3) / (1 + w) ^ year`
with `tech_factor = 0.30·innovation + 0.35·commercial + 0.25·legal + 0.10·(remaining/total)`. -/
def techSpecFormula (revs : List ℚ) (base inn comm legal : ℚ)
    (remaining tpl : ℕ) (t w : ℚ) : ℚ :=
  ∑ i ∈ Finset.range (min revs.length remaining),
    revs.getD i 0 * base *
      (1 + (0.30 * inn + 0.35 * comm + 0.25 * legal +
        0.10 * ((remaining : ℚ) / (tpl : ℚ)))) * (1 - t) *
      max (1 - ((i + 1 : ℕ) : ℚ) / ((remaining : ℚ) * 1.5)) 0.3 / (1 + w) ^ (i + 1)

/-- One consolidated income-statement period (the fields the engine
reads). -/
structure IncomeStmt where
  revenue : ℚ
  gross_profit : ℚ
  research_and_development : ℚ
  operating_income : ℚ
  net_income : ℚ
  income_tax_expense : ℚ
  interest_expense : ℚ
  deriving DecidableEq, Repr

/-- One item of a segmented-revenue period: a reported amount and its
segment labels. -/
structure SegItem where
  amount : ℚ
  segments : List String
  deriving DecidableEq, Repr

/-- The data the engine fetches for one ticker: `none` models the empty
dict `{}` the client returns on a failed fetch (falsy in the
`if not seg_data or not income_data` check); `some` carries the parsed
list (possibly empty, which is a truthy dict with an empty list). -/
structure DataEnv where
  seg_data : Option (List (List SegItem))
  income_data : Option (List IncomeStmt)
  deriving DecidableEq, Repr

/-- `segment_name.lower().replace(' ', '').replace('-', '')`: lowercase,
then drop every space and hyphen. -/
def normalizeLabel (s : String) : String :=
  String.mk ((s.toList.map Char.toLower).filter (fun c => !(c = ' ' ∨ c = '-')))

/-- The inner scan of `prepare_segment_financials`: the first item of a
period whose segment labels contain a normalized match yields its
amount. -/
def findSegmentAmount (items : List SegItem) (target : String) : Option ℚ :=
  items.findSome? (fun item =>
    if item.segments.any (fun lab => normalizeLabel lab = target) then some item.amount
    else none)

/-- The allocation-fraction computation of `prepare_segment_financials`
(src/ip_valuation_engine.py lines 218-224): zip segment revenues with
consolidated revenues; divide when the consolidated figure is positive,
else append 0. -/
def allocationOf (segment_revenues total_revenues : List ℚ) : List ℚ :=
  (segment_revenues.zip total_revenues).map (fun p => if p.2 > 0 then p.1 / p.2 else 0)

/-- The segment financial profile returned by
`prepare_segment_financials`. -/
structure SegmentFin where
  revenues : List ℚ
  gross_profits : List ℚ
  gp_margins : List ℚ
  rd_expenses : List ℚ
  operating_incomes : List ℚ
  operating_margins : List ℚ
  allocation_pct : List ℚ
  deriving DecidableEq, Repr

/-- Embedding of `IPValuationEngine.prepare_segment_financials`
(src/ip_valuation_engine.py lines 156-269), for a fixed ticker whose
fetched data is `env`.  The process-lifetime cache is omitted: it only
memoizes this deterministic computation. -/
def prepare_segment_financials (env : DataEnv) (segment_name : String) :
    Except PyError SegmentFin :=
  match env.seg_data, env.income_data with
  | some seg_periods, some income_stmts =>
    let target := normalizeLabel segment_name
    let segment_revenues := seg_periods.filterMap (fun period => findSegmentAmount period target)
    if segment_revenues = [] then .error .segmentNotFound
    else
      let total_revenues := income_stmts.map (fun s => s.revenue)
      let gross_profits := income_stmts.map (fun s => s.gross_profit)
      let rd_expenses := income_stmts.map (fun s => s.research_and_development)
      let operating_incomes := income_stmts.map (fun s => s.operating_income)
      let segment_allocation := allocationOf segment_revenues total_revenues
      let segment_rd := (rd_expenses.zip segment_allocation).map (fun p => p.1 * p.2)
      let gp_margins := (gross_profits.zip (total_revenues.zip segment_revenues)).map
        (fun p => if p.2.1 > 0 then p.1 / p.2.1 else 0)
      let segment_gp := (gross_profits.zip (total_revenues.zip segment_revenues)).map
        (fun p => if p.2.1 > 0 then p.2.2 * (p.1 / p.2.1) else 0)
      let op_margins := (operating_incomes.zip (total_revenues.zip segment_revenues)).map
        (fun p => if p.2.1 > 0 then p.1 / p.2.1 else 0)
      let segment_op_income := (operating_incomes.zip (total_revenues.zip segment_revenues)).map
        (fun p => if p.2.1 > 0 then p.2.2 * (p.1 / p.2.1) else 0)
      .ok { revenues := segment_revenues, gross_profits := segment_gp,
            gp_margins := gp_margins, rd_expenses := segment_rd,
            operating_incomes := segment_op_income, operating_margins := op_margins,
            allocation_pct := segment_allocation }
  | _, _ => .error .fetchError

/-- The `allocation_pct` list of a `prepare_segment_financials` call
(`[]` when the call raises). -/
def allocListOf (e : Except PyError SegmentFin) : List ℚ :=
  match e with
  | .ok r => r.allocation_pct
  | .error _ => []

/-- Embedding of the `IPAsset` dataclass (src/ip_valuation_engine.py
lines 12-27); `related_segments` pairs are `(name, attribution_pct)`. -/
structure IPAsset where
  id : String
  type : String
  description : String
  related_segments : List (String × ℚ)
  royalty_rate : ℚ
  valuation_method : String
  innovation_score : Option ℚ
  commercial_score : Option ℚ
  legal_strength_score : Option ℚ
  remaining_life_years : Option ℕ
  total_patent_life : ℕ
  deriving DecidableEq, Repr

/-- Python `x or default` on an optional numeric field: `None` and `0`
are both falsy and yield the default. -/
def pyOr (x : Option ℚ) (d : ℚ) : ℚ :=
  match x with
  | none => d
  | some v => if v = 0 then d else v

/-- Python `x or default` on an optional int field. -/
def pyOrNat (x : Option ℕ) (d : ℕ) : ℕ :=
  match x with
  | none => d
  | some v => if v = 0 then d else v

/-- The per-segment result of one valuation method, tagged by method. -/
inductive MethodResult where
  | rfr (r : RfRResult)
  | mpee (r : MPEEResult)
  | tech (r : TechResult)
  deriving DecidableEq, Repr

/-- The `total_value` key common to all three method results. -/
def MethodResult.total_value : MethodResult → ℚ
  | .rfr r => r.total_value
  | .mpee r => r.total_value
  | .tech r => r.total_value

/-- One entry of `segment_valuations` in a `value_ip_asset` result. -/
structure SegValuation where
  segment : String
  segment_attribution : ℚ
  result : MethodResult
  deriving DecidableEq, Repr

/-- The result of `value_ip_asset`. -/
structure AssetValuation where
  ip_asset_id : String
  total_value : ℚ
  segment_valuations : List SegValuation
  deriving DecidableEq, Repr

/-- The method dispatch of `value_ip_asset` (src/ip_valuation_engine.py
lines 561-603), applied to attribution-scaled revenues.  The
`excess_earnings` branch averages `operating_margins`
(ZeroDivisionError when that list is empty) and passes the hardcoded
contributory-asset dict and a 0.50 IP contribution; the
`technology_factor` branch applies Python `or` defaults to the optional
scores; any other selector raises
`ValueError(f"Unknown valuation method: ...")`. -/
def applyMethod (asset : IPAsset) (attributed_revenues : List ℚ) (segment_data : SegmentFin)
    (wacc tax_rate terminal_growth : ℚ) : Except PyError MethodResult :=
  if asset.valuation_method = "relief_from_royalty" then
    (relief_from_royalty attributed_revenues asset.royalty_rate tax_rate wacc 1
      terminal_growth).map .rfr
  else if asset.valuation_method = "excess_earnings" then
    if segment_data.operating_margins.length = 0 then .error .zeroDivisionError
    else
      let avg_op_margin := segment_data.operating_margins.sum /
        (segment_data.operating_margins.length : ℚ)
      (multi_period_excess_earnings attributed_revenues avg_op_margin
        [("working_capital", 0.02), ("fixed_assets", 0.10), ("other_intangibles", 0.12)]
        0.50 wacc tax_rate terminal_growth).map .mpee
  else if asset.valuation_method = "technology_factor" then
    (technology_factor_valuation attributed_revenues asset.royalty_rate
      (pyOr asset.innovation_score 0.7) (pyOr asset.commercial_score 0.7)
      (pyOr asset.legal_strength_score 0.7) (pyOrNat asset.remaining_life_years 10)
      asset.total_patent_life tax_rate wacc).map .tech
  else .error .unknownMethod

/-- The segment loop of `value_ip_asset` (src/ip_valuation_engine.py
lines 540-611): a failed `prepare_segment_financials` is caught and the
segment skipped (`continue`); a method error propagates; a success
accumulates `total_value` and appends the segment valuation. -/
def assetLoop (env : DataEnv) (asset : IPAsset) (wacc tax_rate terminal_growth : ℚ) :
    ℚ × List SegValuation → List (String × ℚ) → Except PyError (ℚ × List SegValuation)
  | acc, [] => .ok acc
  | acc, seg :: rest =>
    match prepare_segment_financials env seg.1 with
    | .error _ => assetLoop env asset wacc tax_rate terminal_growth acc rest
    | .ok segment_data =>
      let attributed_revenues := segment_data.revenues.map (fun rev => rev * seg.2)
      match applyMethod asset attributed_revenues segment_data wacc tax_rate terminal_growth with
      | .error e => .error e
      | .ok r => assetLoop env asset wacc tax_rate terminal_growth
          (acc.1 + r.total_value, acc.2 ++ [⟨seg.1, seg.2, r⟩]) rest

/-- Embedding of `IPValuationEngine.value_ip_asset`
(src/ip_valuation_engine.py lines 517-621). -/
def value_ip_asset (env : DataEnv) (asset : IPAsset) (wacc tax_rate terminal_growth : ℚ) :
    Except PyError AssetValuation :=
  match assetLoop env asset wacc tax_rate terminal_growth (0, []) asset.related_segments with
  | .error e => .error e
  | .ok (total_value, segment_valuations) =>
    .ok { ip_asset_id := asset.id, total_value := total_value,
          segment_valuations := segment_valuations }

/-- The result of `value_ip_portfolio`. -/
structure PortfolioValuation where
  total_portfolio_value : ℚ
  asset_count : ℕ
  asset_valuations : List AssetValuation
  deriving DecidableEq, Repr

/-- Embedding of `IPValuationEngine.value_ip_portfolio`
(src/ip_valuation_engine.py lines 623-674): every exception from
`value_ip_asset` is caught and the asset skipped, so the function is
total. -/
def value_ip_portfolio (env : DataEnv) (ip_portfolio : List IPAsset)
    (wacc tax_rate terminal_growth : ℚ) : PortfolioValuation :=
  let asset_valuations := ip_portfolio.filterMap (fun asset =>
    match value_ip_asset env asset wacc tax_rate terminal_growth with
    | .ok v => some v
    | .error _ => none)
  { total_portfolio_value := (asset_valuations.map (fun v => v.total_value)).sum,
    asset_count := asset_valuations.length,
    asset_valuations := asset_valuations }

/-- One balance-sheet period (the fields `_calculate_wacc` reads). -/
structure BalanceSheet where
  total_debt : ℚ
  shareholders_equity : ℚ
  outstanding_shares : ℚ
  deriving DecidableEq, Repr

/-- The `{'snapshot': {'price': ...}}` payload; `none` models a missing
or empty snapshot (price defaulting to 0). -/
structure PriceSnapshot where
  price : ℚ
  deriving DecidableEq, Repr

/-- Python `round(x, 4)` (modelled as round-to-nearest on exact
rationals; the default branches of the estimators never round). -/
def pyRound4 (x : ℚ) : ℚ :=
  ((round (x * 10000) : ℤ) : ℚ) / 10000

/-- Result of `_calculate_effective_tax_rate`: the rate and the
`method` tag (`"calculated"` or `"default"`). -/
structure TaxResult where
  effective_tax_rate : ℚ
  method : String
  deriving DecidableEq, Repr

/-- Embedding of `AssumptionCalculator._calculate_effective_tax_rate`
(src/auto_assumptions.py lines 103-142): over the three most recent
periods, keep `tax / (net_income + tax)` when pretax income is positive,
the tax expense nonnegative, and the implied rate in `[0, 0.5]`; average
the survivors, else fall back to the 21% default. -/
def calculate_effective_tax_rate (statements : List IncomeStmt) : TaxResult :=
  match statements with
  | [] => { effective_tax_rate := 0.21, method := "default" }
  | _ =>
    let tax_rates := (statements.take 3).filterMap (fun stmt =>
      let pretax_income := stmt.net_income + stmt.income_tax_expense
      if pretax_income > 0 ∧ stmt.income_tax_expense ≥ 0 then
        let tax_rate := stmt.income_tax_expense / pretax_income
        if 0 ≤ tax_rate ∧ tax_rate ≤ 0.50 then some tax_rate else none
      else none)
    match tax_rates with
    | [] => { effective_tax_rate := 0.21, method := "default" }
    | _ => { effective_tax_rate := pyRound4 (tax_rates.sum / (tax_rates.length : ℚ)),
             method := "calculated" }

/-- Embedding of `AssumptionCalculator._calculate_cost_of_debt`
(src/auto_assumptions.py lines 214-231). -/
def calculate_cost_of_debt (statements : List IncomeStmt) (total_debt : ℚ) : ℚ :=
  match statements with
  | [] => 0.04
  | latest :: _ =>
    if total_debt ≤ 0 then 0.04
    else if latest.interest_expense > 0 ∧ total_debt > 0 then
      min (latest.interest_expense / total_debt) 0.15
    else 0.04

/-- Embedding of `AssumptionCalculator._calculate_cost_of_equity`
(src/auto_assumptions.py lines 233-262): fixed 4.5% risk-free rate, 6%
market risk premium, beta by market-cap bracket. -/
def calculate_cost_of_equity (market_cap : ℚ) : ℚ :=
  let risk_free_rate : ℚ := 0.045
  let market_risk_premium : ℚ := 0.06
  let beta : ℚ :=
    if market_cap > 500 * 10 ^ 9 then 1.0
    else if market_cap > 100 * 10 ^ 9 then 1.1
    else if market_cap > 10 * 10 ^ 9 then 1.2
    else 1.3
  risk_free_rate + beta * market_risk_premium

/-- Result of `_calculate_wacc` / `_default_wacc`. -/
structure WaccResult where
  wacc : ℚ
  method : String
  deriving DecidableEq, Repr

/-- Embedding of `AssumptionCalculator._default_wacc`
(src/auto_assumptions.py lines 264-270). -/
def default_wacc : WaccResult :=
  { wacc := 0.10, method := "default" }

/-- Embedding of `AssumptionCalculator._calculate_wacc`
(src/auto_assumptions.py lines 144-212). -/
def calculate_wacc (income_stmts : List IncomeStmt) (balance_sheets : List BalanceSheet)
    (price_data : Option PriceSnapshot) (tax_rate_info : TaxResult) : WaccResult :=
  match balance_sheets with
  | [] => default_wacc
  | latest_bs :: _ =>
    let total_debt := latest_bs.total_debt
    let shares_outstanding := latest_bs.outstanding_shares
    let current_price := match price_data with | some s => s.price | none => 0
    let market_cap :=
      if shares_outstanding > 0 ∧ current_price > 0 then shares_outstanding * current_price
      else latest_bs.shareholders_equity
    let cost_of_debt := calculate_cost_of_debt income_stmts total_debt
    let cost_of_equity := calculate_cost_of_equity market_cap
    let total_value := market_cap + total_debt
    if total_value > 0 then
      let equity_weight := market_cap / total_value
      let debt_weight := total_debt / total_value
      let tax_rate := tax_rate_info.effective_tax_rate
      { wacc := pyRound4 (equity_weight * cost_of_equity +
          debt_weight * cost_of_debt * (1 - tax_rate)),
        method := "calculated" }
    else default_wacc

/-- Result of `_calculate_terminal_growth`. -/
structure GrowthResult where
  terminal_growth : ℚ
  method : String
  deriving DecidableEq, Repr

/-- Embedding of `AssumptionCalculator._calculate_terminal_growth`
(src/auto_assumptions.py lines 272-323): needs at least 3 periods;
year-over-year growth rates outside `(-0.5, 0.5)` or with nonpositive
prior revenue are filtered; the average is capped at 4% and floored at
1%; otherwise the 2.5% default. -/
def calculate_terminal_growth (statements : List IncomeStmt) : GrowthResult :=
  if statements.length < 3 then { terminal_growth := 0.025, method := "default" }
  else
    let growth_rates := (statements.zip statements.tail).filterMap (fun p =>
      if p.2.revenue > 0 then
        let growth := (p.1.revenue - p.2.revenue) / p.2.revenue
        if -0.5 < growth ∧ growth < 0.5 then some growth else none
      else none)
    match growth_rates with
    | [] => { terminal_growth := 0.025, method := "default" }
    | _ =>
      let avg_growth := growth_rates.sum / (growth_rates.length : ℚ)
      let capped_growth := min avg_growth 0.04
      { terminal_growth := pyRound4 (max capped_growth 0.01), method := "calculated" }

/-- The Relief-from-Royalty total with the scalar parameters factored
out: the total equals `royalty × (1 − tax) × attribution` times this
kernel, which depends only on revenues, WACC and growth. -/
def rfrKernel (revs : List ℚ) (w g : ℚ) : ℚ :=
  (∑ i ∈ Finset.range revs.length, revs.getD i 0 / (1 + w) ^ (i + 1))
  + revs.getLastD 0 * (1 + g) / (w - g) / (1 + w) ^ revs.length

/-- Hand computation of end-to-end scenario A: three discounted
after-tax royalties on revenues 100, 110, 121 plus the Gordon-growth
terminal value, at royalty 5%, tax 21%, WACC 10%, growth 2%. -/
def scenarioAHandValue : ℚ :=
  100 * 0.05 * (1 - 0.21) / 1.10 +
  110 * 0.05 * (1 - 0.21) / 1.10 ^ 2 +
  121 * 0.05 * (1 - 0.21) / 1.10 ^ 3 +
  (121 * (1 + 0.02) * 0.05 * (1 - 0.21) / (0.10 - 0.02)) / 1.10 ^ 3

/-- A one-period consolidated income statement used by the concrete
fixtures. -/
def stmtA : IncomeStmt :=
  { revenue := 100, gross_profit := 40, research_and_development := 10,
    operating_income := 30, net_income := 20, income_tax_expense := 5, interest_expense := 1 }

/-- Fixture: one segmented-revenue period reporting 200 for segment
`alpha` against consolidated revenue 100, so the allocation fraction is
2. -/
def envAllocCx : DataEnv :=
  { seg_data := some [[{ amount := 200, segments := ["alpha"] }]],
    income_data := some [stmtA] }

/-- Fixture: one segmented-revenue period reporting 50 for segment
`alpha` against consolidated revenue 100. -/
def envOneSeg : DataEnv :=
  { seg_data := some [[{ amount := 50, segments := ["alpha"] }]],
    income_data := some [stmtA] }

/-- Fixture asset with an unrecognized valuation-method selector and one
resolvable (`alpha`) plus one unresolvable (`missing`) segment. -/
def assetBadMethod : IPAsset :=
  { id := "A1", type := "patent", description := "fixture",
    related_segments := [("alpha", 0.5), ("missing", 0.5)],
    royalty_rate := 0.05, valuation_method := "bogus",
    innovation_score := none, commercial_score := none,
    legal_strength_score := none, remaining_life_years := none, total_patent_life := 20 }

/-- Fixture asset using the default `relief_from_royalty` method, with
one resolvable (`alpha`) and one unresolvable (`missing`) segment. -/
def assetRfR : IPAsset :=
  { id := "A2", type := "trademark", description := "fixture",
    related_segments := [("alpha", 0.5), ("missing", 0.5)],
    royalty_rate := 0.05, valuation_method := "relief_from_royalty",
    innovation_score := none, commercial_score := none,
    legal_strength_score := none, remaining_life_years := none, total_patent_life := 20 }

/-- `pv_terminal_value` of a `multi_period_excess_earnings` call (0 when
the call raises). -/
def mpeeTerminal (segment_revenues : List ℚ) (operating_margin : ℚ)
    (contributory_assets : List (String × ℚ))
    (ip_contribution_pct wacc tax_rate terminal_growth : ℚ) : ℚ :=
  match multi_period_excess_earnings segment_revenues operating_margin contributory_assets
      ip_contribution_pct wacc tax_rate terminal_growth with
  | .ok r => r.pv_terminal_value
  | .error _ => 0

/-- Summing a function mapped over `enumFrom` is a `Finset.range` sum with
a shifted index. -/
lemma sum_map_enumFrom_eq (f : ℕ × ℚ → ℚ) :
    ∀ (l : List ℚ) (k : ℕ),
      ((List.enumFrom k l).map f).sum = ∑ i ∈ Finset.range l.length, f (k + i, l.getD i 0)
  | [], k => by simp
  | x :: xs, k => by
    rw [List.enumFrom_cons, List.map_cons, List.sum_cons, sum_map_enumFrom_eq f xs (k + 1),
      List.length_cons, Finset.sum_range_succ']
    simp only [List.getD_cons_succ, List.getD_cons_zero, Nat.add_zero]
    rw [add_comm]
    congr 1
    apply Finset.sum_congr rfl
    intro i _
    have h2 : k + 1 + i = k + (i + 1) := by omega
    rw [h2]

/-- The sum of the ledger `present_value` column equals the discounted
explicit-period sum. -/
lemma rfrYearlyDetails_pv_sum (revs : List ℚ) (ρ t w a : ℚ) :
    ((rfrYearlyDetails revs ρ t w a).map (fun d => d.present_value)).sum =
      ∑ i ∈ Finset.range revs.length, revs.getD i 0 * ρ * (1 - t) * a / (1 + w) ^ (i + 1) := by
  unfold rfrYearlyDetails
  rw [List.map_map, sum_map_enumFrom_eq]
  apply Finset.sum_congr rfl
  intro i _
  simp only [Function.comp]
  rw [Nat.add_comm 1 i]

/-- On a nonempty revenue list with `1 + wacc ≠ 0` and
`wacc ≠ terminal_growth`, `relief_from_royalty` succeeds and its fields
are the closed-form discounted sums. -/
lemma rfr_spec (revs : List ℚ) (ρ t w a g : ℚ) (hne : revs ≠ []) (hw1 : 1 + w ≠ 0)
    (hwg : w - g ≠ 0) :
    ∃ r, relief_from_royalty revs ρ t w a g = .ok r ∧
      r.pv_explicit_period =
        ∑ i ∈ Finset.range revs.length, revs.getD i 0 * ρ * (1 - t) * a / (1 + w) ^ (i + 1) ∧
      r.pv_terminal_value =
        revs.getLastD 0 * (1 + g) * ρ * (1 - t) * a / (w - g) / (1 + w) ^ revs.length ∧
      r.total_value = rfrSpecFormula revs ρ t w a g := by
  have hlast : revs.getLastD 0 = revs.getLast hne := by
    rw [List.getLastD_eq_getLast?, List.getLast?_eq_getLast revs hne, Option.getD_some]
  have hT : revs.getLast hne * (1 + g) * ρ * (1 - t) * a / (w - g) / (1 + w) ^ revs.length =
      revs.getLastD 0 * (1 + g) * ρ * (1 - t) * a / (w - g) / (1 + w) ^ revs.length := by
    rw [hlast]
  unfold relief_from_royalty
  rw [if_neg (by intro hc; exact hw1 hc.2), dif_neg hne, if_neg hwg]
  refine ⟨_, rfl, ?_, ?_, ?_⟩
  · exact rfrYearlyDetails_pv_sum revs ρ t w a
  · rw [← hT]
  · unfold rfrSpecFormula
    rw [rfrYearlyDetails_pv_sum revs ρ t w a, ← hT]

/-- `rfrTotalValue` as the closed form, under the success conditions. -/
lemma rfrTotalValue_eq (revs : List ℚ) (ρ t w a g : ℚ) (hne : revs ≠ []) (hw1 : 1 + w ≠ 0)
    (hwg : w - g ≠ 0) :
    rfrTotalValue revs ρ t w a g = rfrSpecFormula revs ρ t w a g := by
  obtain ⟨r, hr, _, _, ht⟩ := rfr_spec revs ρ t w a g hne hw1 hwg
  unfold rfrTotalValue
  rw [hr]
  exact ht

/-- Scenario A evaluated: the engine total on `[100, 110, 121]` at 5%
royalty, 21% tax, 10% WACC, 2% growth equals the hand-computed value
exactly. -/
lemma scenarioA_exact :
    rfrTotalValue [100, 110, 121] 0.05 0.21 0.10 1 0.02 = scenarioAHandValue := by
  rw [rfrTotalValue_eq _ _ _ _ _ _ (by simp) (by norm_num) (by norm_num)]
  unfold rfrSpecFormula scenarioAHandValue
  norm_num [Finset.sum_range_succ]

/-- Claim C1, corrected.  The claim quantifies over every WACC `w` and
growth `g` with `w > g`, but at `w = -1` the source divides by
`(1 + wacc) ** year = 0` and raises `ZeroDivisionError` instead of
returning a value: at revenues `[1]`, `w = -1 > g = -2` the claim's
hypotheses hold yet no total is returned. -/
theorem c1_counterexample :
    relief_from_royalty [1] 0.05 0.21 (-1) 1 (-2) = .error .zeroDivisionError ∧
    ((-2 : ℚ) < -1 ∧ ([1] : List ℚ) ≠ []) := by
  refine ⟨?_, by norm_num, by simp⟩
  unfold relief_from_royalty
  rw [if_pos ⟨by simp, by norm_num⟩]

/-- Claim C1 (amended: additionally WACC ≠ −1, which the counterexample
forces).  For every non-empty revenue sequence, royalty rate, tax rate,
attribution, WACC `w` and growth `g` with `w > g` and `1 + w ≠ 0`,
`relief_from_royalty` returns `total_value` equal to the discounted
after-tax royalty sum plus the Gordon-growth terminal value discounted
back `N` years; and on scenario A (`[100, 110, 121]`, royalty 5%, tax
21%, attribution 100%, WACC 10%, growth 2%) the result matches the
hand-computed value within 1e-6 relative tolerance. -/
theorem c1_rfr_total_formula (revs : List ℚ) (ρ t w a g : ℚ)
    (hne : revs ≠ []) (hwg : g < w) (hw1 : 1 + w ≠ 0) :
    (∃ r, relief_from_royalty revs ρ t w a g = .ok r ∧
      r.total_value =
        (∑ i ∈ Finset.range revs.length,
          revs.getD i 0 * ρ * (1 - t) * a / (1 + w) ^ (i + 1)) +
        revs.getLastD 0 * (1 + g) * ρ * (1 - t) * a / (w - g) / (1 + w) ^ revs.length) ∧
    |rfrTotalValue [100, 110, 121] 0.05 0.21 0.10 1 0.02 - scenarioAHandValue| ≤
      scenarioAHandValue * (1 / 1000000) := by
  constructor
  · obtain ⟨r, hr, _, _, ht⟩ :=
      rfr_spec revs ρ t w a g hne hw1 (sub_ne_zero.mpr hwg.ne')
    refine ⟨r, hr, ?_⟩
    rw [ht]
    rfl
  · rw [scenarioA_exact, sub_self, abs_zero]
    norm_num [scenarioAHandValue]

/-- Witness for C1 at scenario A's inputs. -/
theorem c1_rfr_total_formula_witness :
    (∃ r, relief_from_royalty [100, 110, 121] 0.05 0.21 0.10 1 0.02 = .ok r ∧
      r.total_value =
        (∑ i ∈ Finset.range ([100, 110, 121] : List ℚ).length,
          ([100, 110, 121] : List ℚ).getD i 0 * 0.05 * (1 - 0.21) * 1 / (1 + 0.10) ^ (i + 1)) +
        ([100, 110, 121] : List ℚ).getLastD 0 * (1 + 0.02) * 0.05 * (1 - 0.21) * 1
          / (0.10 - 0.02) / (1 + 0.10) ^ ([100, 110, 121] : List ℚ).length) ∧
    |rfrTotalValue [100, 110, 121] 0.05 0.21 0.10 1 0.02 - scenarioAHandValue| ≤
      scenarioAHandValue * (1 / 1000000) :=
  c1_rfr_total_formula [100, 110, 121] 0.05 0.21 0.10 1 0.02 (by simp) (by norm_num)
    (by norm_num)

/-- Claim C2 is a code bug: with WACC 5% below terminal growth 10% (so
WACC ≤ growth), both perpetuity methods return a result with a negative
terminal value instead of raising `InvalidAssumption` — no such
validation exists in the source. -/
theorem c2_gordon_growth_not_validated :
    rfrTerminal [100] 0.05 0.21 0.05 1 0.10 < 0 ∧
    (relief_from_royalty [100] 0.05 0.21 0.05 1 0.10).isOk = true ∧
    mpeeTerminal [100] 0.30
      [("working_capital", 0.02), ("fixed_assets", 0.10), ("other_intangibles", 0.12)]
      0.50 0.05 0.21 0.10 < 0 ∧
    (multi_period_excess_earnings [100] 0.30
      [("working_capital", 0.02), ("fixed_assets", 0.10), ("other_intangibles", 0.12)]
      0.50 0.05 0.21 0.10).isOk = true := by
  refine ⟨?_, ?_, ?_, ?_⟩
  · norm_num [rfrTerminal, relief_from_royalty, rfrYearlyDetails, List.enumFrom_cons]
  · norm_num [relief_from_royalty, rfrYearlyDetails, List.enumFrom_cons, Except.isOk,
      Except.toBool]
  · norm_num [mpeeTerminal, multi_period_excess_earnings, List.enumFrom_cons]
  · norm_num [multi_period_excess_earnings, List.enumFrom_cons, Except.isOk, Except.toBool]

/-- Indexing with default into a scaled list. -/
lemma getD_map_mul (l : List ℚ) (c : ℚ) (i : ℕ) (hi : i < l.length) :
    (l.map (fun x => x * c)).getD i 0 = l.getD i 0 * c := by
  rw [List.getD_eq_getElem _ _ (by simpa using hi), List.getD_eq_getElem _ _ hi,
    List.getElem_map]

/-- Last element (with default) of a scaled nonempty list. -/
lemma getLastD_map_mul (l : List ℚ) (c : ℚ) (hne : l ≠ []) :
    (l.map (fun x => x * c)).getLastD 0 = l.getLastD 0 * c := by
  rw [List.getLastD_eq_getLast?, List.getLastD_eq_getLast?, List.getLast?_map,
    List.getLast?_eq_getLast l hne]
  simp

/-- The spec closed form factors as scalar parameters times a kernel
depending only on revenues, WACC and growth. -/
lemma rfrSpecFormula_eq_kernel (revs : List ℚ) (ρ t w a g : ℚ) :
    rfrSpecFormula revs ρ t w a g = ρ * (1 - t) * a * rfrKernel revs w g := by
  unfold rfrSpecFormula rfrKernel
  rw [mul_add (ρ * (1 - t) * a), Finset.mul_sum]
  congr 1
  · exact Finset.sum_congr rfl (fun i _ => by ring)
  · ring

/-- The spec closed form is homogeneous of degree 1 in the revenue
list. -/
lemma rfrSpecFormula_scale (revs : List ℚ) (ρ t w a g c : ℚ) (hne : revs ≠ []) :
    rfrSpecFormula (revs.map (fun x => x * c)) ρ t w a g =
      c * rfrSpecFormula revs ρ t w a g := by
  unfold rfrSpecFormula
  rw [List.length_map, mul_add c, Finset.mul_sum, getLastD_map_mul revs c hne]
  congr 1
  · apply Finset.sum_congr rfl
    intro i hi
    rw [getD_map_mul revs c i (Finset.mem_range.mp hi)]
    ring
  · ring

/-- Claim C10: `relief_from_royalty` is homogeneous of degree 1 in its
revenue sequence — scaling every revenue by `c ≥ 0` scales
`total_value`, `pv_explicit_period` and `pv_terminal_value` by exactly
`c` — and consequently pre-multiplying the revenues by the attribution
fraction and passing `attribution_pct = 1` (the `value_ip_asset`
strategy) gives the same total as passing the fraction as
`attribution_pct` on unscaled revenues.  (Stated under the success
conditions `WACC ≠ −1`, `WACC ≠ growth` under which the calls return.) -/
theorem c10_rfr_homogeneous (revs : List ℚ) (ρ t w a g c : ℚ)
    (hne : revs ≠ []) (hc : 0 ≤ c) (hw1 : 1 + w ≠ 0) (hwg : w - g ≠ 0) :
    (∃ r r2, relief_from_royalty revs ρ t w a g = .ok r ∧
      relief_from_royalty (revs.map (fun x => x * c)) ρ t w a g = .ok r2 ∧
      r2.total_value = c * r.total_value ∧
      r2.pv_explicit_period = c * r.pv_explicit_period ∧
      r2.pv_terminal_value = c * r.pv_terminal_value) ∧
    rfrTotalValue (revs.map (fun x => x * a)) ρ t w 1 g = rfrTotalValue revs ρ t w a g := by
  have hmapne : ∀ d : ℚ, revs.map (fun x => x * d) ≠ [] := by
    intro d h
    exact hne (List.map_eq_nil_iff.mp h)
  constructor
  · obtain ⟨r, hr, hrE, hrT, hrTot⟩ := rfr_spec revs ρ t w a g hne hw1 hwg
    obtain ⟨r2, hr2, hr2E, hr2T, hr2Tot⟩ :=
      rfr_spec (revs.map (fun x => x * c)) ρ t w a g (hmapne c) hw1 hwg
    refine ⟨r, r2, hr, hr2, ?_, ?_, ?_⟩
    · rw [hrTot, hr2Tot, rfrSpecFormula_scale revs ρ t w a g c hne]
    · rw [hrE, hr2E, List.length_map]
      rw [Finset.mul_sum]
      apply Finset.sum_congr rfl
      intro i hi
      rw [getD_map_mul revs c i (Finset.mem_range.mp hi)]
      ring
    · rw [hrT, hr2T, List.length_map, getLastD_map_mul revs c hne]
      ring
  · rw [rfrTotalValue_eq _ _ _ _ _ _ (hmapne a) hw1 hwg,
      rfrTotalValue_eq _ _ _ _ _ _ hne hw1 hwg,
      rfrSpecFormula_scale revs ρ t w 1 g a hne,
      rfrSpecFormula_eq_kernel revs ρ t w 1 g, rfrSpecFormula_eq_kernel revs ρ t w a g]
    ring

/-- Witness for C10 at concrete inputs. -/
theorem c10_rfr_homogeneous_witness :
    (∃ r r2, relief_from_royalty [100, 110, 121] 0.05 0.21 0.10 0.8 0.02 = .ok r ∧
      relief_from_royalty ([100, 110, 121].map (fun x => x * 3)) 0.05 0.21 0.10 0.8 0.02 =
        .ok r2 ∧
      r2.total_value = 3 * r.total_value ∧
      r2.pv_explicit_period = 3 * r.pv_explicit_period ∧
      r2.pv_terminal_value = 3 * r.pv_terminal_value) ∧
    rfrTotalValue ([100, 110, 121].map (fun x => x * 0.8)) 0.05 0.21 0.10 1 0.02 =
      rfrTotalValue [100, 110, 121] 0.05 0.21 0.10 0.8 0.02 :=
  c10_rfr_homogeneous [100, 110, 121] 0.05 0.21 0.10 0.8 0.02 3 (by simp) (by norm_num)
    (by norm_num) (by norm_num)

/-- Every default-0 index read of an elementwise-nonnegative list is
nonnegative. -/
lemma getD_nonneg (l : List ℚ) (hrev : ∀ x ∈ l, 0 ≤ x) (i : ℕ) : 0 ≤ l.getD i 0 := by
  rcases lt_or_le i l.length with h | h
  · rw [List.getD_eq_getElem l 0 h]
    exact hrev _ (List.getElem_mem h)
  · rw [List.getD_eq_default l 0 h]

/-- The default-0 last element of an elementwise-nonnegative list is
nonnegative. -/
lemma getLastD_nonneg (l : List ℚ) (hrev : ∀ x ∈ l, 0 ≤ x) : 0 ≤ l.getLastD 0 := by
  by_cases h : l = []
  · subst h; simp
  · rw [List.getLastD_eq_getLast?, List.getLast?_eq_getLast l h, Option.getD_some]
    exact hrev _ (List.getLast_mem h)

/-- With nonnegative revenues, growth `g ≥ 0` and `w > g`, the
Relief-from-Royalty kernel is nonnegative. -/
lemma rfrKernel_nonneg (revs : List ℚ) (w g : ℚ) (hrev : ∀ x ∈ revs, 0 ≤ x)
    (hg : 0 ≤ g) (hw : g < w) : 0 ≤ rfrKernel revs w g := by
  have hw1 : (0 : ℚ) < 1 + w := by linarith
  unfold rfrKernel
  apply add_nonneg
  · apply Finset.sum_nonneg
    intro i _
    exact div_nonneg (getD_nonneg revs hrev i) (pow_nonneg hw1.le _)
  · apply div_nonneg _ (pow_nonneg hw1.le _)
    apply div_nonneg _ (by linarith)
    exact mul_nonneg (getLastD_nonneg revs hrev) (by linarith)

/-- With nonnegative revenues, a positive last revenue, `g ≥ 0` and
`g < w1 < w2`, the kernel strictly decreases from `w1` to `w2`. -/
lemma rfrKernel_strictAnti (revs : List ℚ) (g w1 w2 : ℚ) (hrev : ∀ x ∈ revs, 0 ≤ x)
    (hlast : 0 < revs.getLastD 0) (hg : 0 ≤ g) (h1 : g < w1) (h12 : w1 < w2) :
    rfrKernel revs w2 g < rfrKernel revs w1 g := by
  have hw1 : (0 : ℚ) < 1 + w1 := by linarith
  unfold rfrKernel
  apply add_lt_add_of_le_of_lt
  · apply Finset.sum_le_sum
    intro i _
    exact div_le_div_of_nonneg_left (getD_nonneg revs hrev i) (pow_pos hw1 _)
      (pow_le_pow_left₀ hw1.le (by linarith) _)
  · rw [div_div, div_div]
    apply div_lt_div_of_pos_left
    · exact mul_pos hlast (by linarith)
    · exact mul_pos (by linarith) (pow_pos hw1 _)
    · exact mul_lt_mul (by linarith) (pow_le_pow_left₀ hw1.le (by linarith) _)
        (pow_pos hw1 _) (by linarith)

/-- Claim C9, counterexample to strict decrease in WACC as stated: with
the all-zero revenue list `[0]` (and every stated side condition
satisfied: royalty 5% ≥ 0, attribution 1 ∈ [0,1], tax 21% ∈ [0,1],
WACC 10% and 20% both above growth 2% ≥ 0) the total is 0 at both
discount rates, so it is not strictly decreasing in WACC. -/
theorem c9_counterexample :
    rfrTotalValue [0] 0.05 0.21 0.20 1 0.02 = rfrTotalValue [0] 0.05 0.21 0.10 1 0.02 ∧
    ¬ rfrTotalValue [0] 0.05 0.21 0.20 1 0.02 < rfrTotalValue [0] 0.05 0.21 0.10 1 0.02 := by
  constructor <;>
    norm_num [rfrTotalValue, relief_from_royalty, rfrYearlyDetails, List.enumFrom_cons]

/-- Claim C9 (amended: revenues are additionally required elementwise
nonnegative for the monotonicity parts, and the strict part additionally
requires a positive royalty rate, positive attribution, tax < 1 and a
positive terminal-year revenue — the all-zero counterexample forces
degenerate inputs to be excluded).  With those provisos, the
Relief-from-Royalty total is monotonically non-decreasing in the royalty
rate and in the attribution fraction, and strictly decreasing in
WACC. -/
theorem c9_rfr_monotone (revs : List ℚ) (t g : ℚ)
    (hne : revs ≠ []) (hrev : ∀ x ∈ revs, 0 ≤ x) (ht1 : t ≤ 1) (hg : 0 ≤ g) :
    (∀ ρ1 ρ2 a w, 0 ≤ a → a ≤ 1 → g < w → 0 ≤ ρ1 → ρ1 ≤ ρ2 →
      rfrTotalValue revs ρ1 t w a g ≤ rfrTotalValue revs ρ2 t w a g) ∧
    (∀ ρ a1 a2 w, 0 ≤ ρ → g < w → 0 ≤ a1 → a1 ≤ a2 →
      rfrTotalValue revs ρ t w a1 g ≤ rfrTotalValue revs ρ t w a2 g) ∧
    (∀ ρ a w1 w2, 0 < ρ → 0 < a → t < 1 → 0 < revs.getLastD 0 →
      g < w1 → w1 < w2 →
      rfrTotalValue revs ρ t w2 a g < rfrTotalValue revs ρ t w1 a g) := by
  refine ⟨?_, ?_, ?_⟩
  · intro ρ1 ρ2 a w ha0 ha1 hw hρ0 hρ12
    have hw1 : (1 : ℚ) + w ≠ 0 := by
      have : (0 : ℚ) < 1 + w := by linarith
      exact this.ne'
    rw [rfrTotalValue_eq _ _ _ _ _ _ hne hw1 (sub_ne_zero.mpr hw.ne'),
      rfrTotalValue_eq _ _ _ _ _ _ hne hw1 (sub_ne_zero.mpr hw.ne'),
      rfrSpecFormula_eq_kernel, rfrSpecFormula_eq_kernel]
    have hK := rfrKernel_nonneg revs w g hrev hg hw
    have h1t : (0 : ℚ) ≤ 1 - t := by linarith
    gcongr
  · intro ρ a1 a2 w hρ0 hw ha0 ha12
    have hw1 : (1 : ℚ) + w ≠ 0 := by
      have : (0 : ℚ) < 1 + w := by linarith
      exact this.ne'
    rw [rfrTotalValue_eq _ _ _ _ _ _ hne hw1 (sub_ne_zero.mpr hw.ne'),
      rfrTotalValue_eq _ _ _ _ _ _ hne hw1 (sub_ne_zero.mpr hw.ne'),
      rfrSpecFormula_eq_kernel, rfrSpecFormula_eq_kernel]
    have hK := rfrKernel_nonneg revs w g hrev hg hw
    have h1t : (0 : ℚ) ≤ 1 - t := by linarith
    have hρt : (0 : ℚ) ≤ ρ * (1 - t) := mul_nonneg hρ0 h1t
    gcongr
  · intro ρ a w1 w2 hρ ha ht hlast h1 h12
    have h2 : g < w2 := by linarith
    have hwa : (1 : ℚ) + w1 ≠ 0 := by
      have : (0 : ℚ) < 1 + w1 := by linarith
      exact this.ne'
    have hwb : (1 : ℚ) + w2 ≠ 0 := by
      have : (0 : ℚ) < 1 + w2 := by linarith
      exact this.ne'
    rw [rfrTotalValue_eq _ _ _ _ _ _ hne hwb (sub_ne_zero.mpr h2.ne'),
      rfrTotalValue_eq _ _ _ _ _ _ hne hwa (sub_ne_zero.mpr h1.ne'),
      rfrSpecFormula_eq_kernel, rfrSpecFormula_eq_kernel]
    have hK := rfrKernel_strictAnti revs g w1 w2 hrev hlast hg h1 h12
    have hpos : (0 : ℚ) < ρ * (1 - t) * a := mul_pos (mul_pos hρ (by linarith)) ha
    exact mul_lt_mul_of_pos_left hK hpos

/-- Witness for C9 at scenario-A revenues: royalty 4% → 5% raises the
total, attribution 0.5 → 0.8 raises it, WACC 10% → 12% strictly lowers
it. -/
theorem c9_rfr_monotone_witness :
    rfrTotalValue [100, 110, 121] 0.04 0.21 0.10 1 0.02 ≤
      rfrTotalValue [100, 110, 121] 0.05 0.21 0.10 1 0.02 ∧
    rfrTotalValue [100, 110, 121] 0.05 0.21 0.10 0.5 0.02 ≤
      rfrTotalValue [100, 110, 121] 0.05 0.21 0.10 0.8 0.02 ∧
    rfrTotalValue [100, 110, 121] 0.05 0.21 0.12 1 0.02 <
      rfrTotalValue [100, 110, 121] 0.05 0.21 0.10 1 0.02 := by
  obtain ⟨h1, h2, h3⟩ := c9_rfr_monotone [100, 110, 121] 0.21 0.02 (by simp)
    (by intro x hx; fin_cases hx <;> norm_num) (by norm_num) (by norm_num)
  exact ⟨h1 0.04 0.05 1 0.10 (by norm_num) (by norm_num) (by norm_num) (by norm_num)
      (by norm_num),
    h2 0.05 0.5 0.8 0.10 (by norm_num) (by norm_num) (by norm_num) (by norm_num),
    h3 0.05 1 0.10 0.12 (by norm_num) (by norm_num) (by norm_num)
      (by norm_num [List.getLastD_eq_getLast?]) (by norm_num) (by norm_num)⟩

/-- Summing a mapped `List.range` is a `Finset.range` sum. -/
lemma sum_map_range_eq (f : ℕ → ℚ) :
    ∀ n : ℕ, ((List.range n).map f).sum = ∑ i ∈ Finset.range n, f i
  | 0 => by simp
  | n + 1 => by
    rw [List.range_succ, List.map_append, List.sum_append, Finset.sum_range_succ,
      sum_map_range_eq f n]
    simp

/-- Claim C6: for every valid input (nonzero total patent life, so the
blended factor's division is defined, and WACC ≠ −1, so the loop's
discounting is defined), `technology_factor_valuation` returns
`total_value` equal to the decay-weighted discounted royalty sum over
years `1..min(revenue years, remaining life)`, with the blended
technology factor `0.30·innovation + 0.35·commercial + 0.25·legal +
0.10·(remaining/total)`, and adds no terminal value. -/
theorem c6_technology_factor (revs : List ℚ) (base inn comm legal : ℚ)
    (remaining tpl : ℕ) (t w : ℚ) (htpl : tpl ≠ 0) (hw1 : 1 + w ≠ 0) :
    ∃ r, technology_factor_valuation revs base inn comm legal remaining tpl t w = .ok r ∧
      r.total_value = techSpecFormula revs base inn comm legal remaining tpl t w := by
  unfold technology_factor_valuation
  rw [if_neg htpl, if_neg (by intro hc; exact hw1 hc.2)]
  refine ⟨_, rfl, ?_⟩
  show ((List.range (min revs.length remaining)).map _).sum = _
  rw [sum_map_range_eq]
  unfold techSpecFormula
  apply Finset.sum_congr rfl
  intro i _
  simp only [Nat.add_sub_cancel]
  ring_nf

/-- Witness for C6 at concrete inputs. -/
theorem c6_technology_factor_witness :
    ∃ r, technology_factor_valuation [100, 110] 0.05 0.9 0.8 0.7 10 20 0.21 0.10 = .ok r ∧
      r.total_value = techSpecFormula [100, 110] 0.05 0.9 0.8 0.7 10 20 0.21 0.10 :=
  c6_technology_factor [100, 110] 0.05 0.9 0.8 0.7 10 20 0.21 0.10 (by norm_num) (by norm_num)

/-- Claim C7, counterexample: on a zero-length revenue sequence
`technology_factor_valuation` does not fail at all — the call succeeds
and its total is 0. -/
theorem c7_counterexample :
    (technology_factor_valuation [] 0.05 0.7 0.7 0.7 10 20 0.21 0.10).isOk = true ∧
    techTotalValue [] 0.05 0.7 0.7 0.7 10 20 0.21 0.10 = 0 := by
  constructor <;>
    norm_num [technology_factor_valuation, techTotalValue, Except.isOk, Except.toBool]

/-- Claim C7 (amended): on the empty revenue sequence,
`relief_from_royalty` and `multi_period_excess_earnings` do fail for
every parameter choice — but with the generic IndexError of
`segment_revenues[-1]`, not a distinct `InsufficientData` error (the
source defines none) — while `technology_factor_valuation` (with a
nonzero total patent life, whose division precedes the loop) does not
fail: it returns a result with total 0. -/
theorem c7_empty_revenue (ρ t w a g om pct : ℚ) (ca : List (String × ℚ))
    (base inn comm legal t2 w2 : ℚ) (remaining tpl : ℕ) (htpl : tpl ≠ 0) :
    relief_from_royalty [] ρ t w a g = .error .indexError ∧
    multi_period_excess_earnings [] om ca pct w t g = .error .indexError ∧
    (∃ r, technology_factor_valuation [] base inn comm legal remaining tpl t2 w2 = .ok r ∧
      r.total_value = 0) := by
  refine ⟨?_, ?_, ?_⟩
  · simp [relief_from_royalty]
  · simp [multi_period_excess_earnings]
  · unfold technology_factor_valuation
    rw [if_neg htpl, if_neg (by simp)]
    exact ⟨_, rfl, by simp⟩

/-- Witness for C7 at concrete parameters. -/
theorem c7_empty_revenue_witness :
    relief_from_royalty [] 0.05 0.21 0.10 1 0.02 = .error .indexError ∧
    multi_period_excess_earnings [] 0.30 [("working_capital", 0.02)] 0.50 0.10 0.21 0.02 =
      .error .indexError ∧
    (∃ r, technology_factor_valuation [] 0.05 0.7 0.7 0.7 10 20 0.21 0.10 = .ok r ∧
      r.total_value = 0) :=
  c7_empty_revenue 0.05 0.21 0.10 1 0.02 0.30 0.50 [("working_capital", 0.02)]
    0.05 0.7 0.7 0.7 0.21 0.10 10 20 (by norm_num)

/-- Claim C4: with empty (or missing — the client returns an empty dict,
read as an empty list) financial statements, and an empty balance sheet
with no price snapshot for WACC, the three estimators never raise (they
are total functions of their inputs) and return exactly the documented
fallback constants 21% tax, 10% WACC and 2.5% terminal growth, each
tagged `"default"` rather than `"calculated"`. -/
theorem c4_assumption_fallbacks :
    calculate_effective_tax_rate [] = { effective_tax_rate := 0.21, method := "default" } ∧
    calculate_wacc [] [] none (calculate_effective_tax_rate []) =
      { wacc := 0.10, method := "default" } ∧
    calculate_terminal_growth [] = { terminal_growth := 0.025, method := "default" } := by
  refine ⟨rfl, rfl, ?_⟩
  simp [calculate_terminal_growth]

/-- Claim C5, counterexample: a period reporting segment revenue 200
against consolidated revenue 100 (positive) produces the allocation
fraction 2, outside [0, 1]. -/
theorem c5_counterexample :
    allocListOf (prepare_segment_financials envAllocCx "Alpha") = [200 / 100] ∧
    ¬ ((200 : ℚ) / 100 ≤ 1) := by
  constructor
  · rfl
  · norm_num

/-- Claim C5 (amended): every allocation fraction the Segment Financial
Allocator produces equals `segment revenue / consolidated revenue` when
the consolidated revenue is positive — a value in [0, 1] provided the
segment revenue lies between 0 and the consolidated revenue, which the
data does not guarantee — and equals 0, with no division performed, when
the consolidated revenue is nonpositive. -/
theorem c5_allocation_fraction (s tot : List ℚ) (x : ℚ) (hx : x ∈ allocationOf s tot) :
    ∃ p ∈ s.zip tot,
      x = (if p.2 > 0 then p.1 / p.2 else 0) ∧
      (p.2 ≤ 0 → x = 0) ∧
      (0 < p.2 → 0 ≤ p.1 → p.1 ≤ p.2 → 0 ≤ x ∧ x ≤ 1) := by
  unfold allocationOf at hx
  obtain ⟨p, hp, hpx⟩ := List.mem_map.mp hx
  refine ⟨p, hp, hpx.symm, ?_, ?_⟩
  · intro hle
    rw [← hpx, if_neg (not_lt.mpr hle)]
  · intro hpos hs hst
    rw [← hpx, if_pos hpos]
    exact ⟨div_nonneg hs hpos.le, (div_le_one hpos).mpr hst⟩

/-- Witness for C5 on the fraction 50/100 produced from segment revenue
50 and consolidated revenue 100. -/
theorem c5_allocation_fraction_witness :
    ∃ p ∈ ([50] : List ℚ).zip [100],
      (50 : ℚ) / 100 = (if p.2 > 0 then p.1 / p.2 else 0) ∧
      (p.2 ≤ 0 → (50 : ℚ) / 100 = 0) ∧
      (0 < p.2 → 0 ≤ p.1 → p.1 ≤ p.2 → 0 ≤ (50 : ℚ) / 100 ∧ (50 : ℚ) / 100 ≤ 1) :=
  c5_allocation_fraction [50] [100] (50 / 100) (by norm_num [allocationOf])

/-- A successful `prepare_segment_financials` always carries a nonempty
revenue list (the source raises `SegmentNotFound` otherwise). -/
lemma prepare_ok_revenues_ne_nil (env : DataEnv) (name : String) (sd : SegmentFin)
    (h : prepare_segment_financials env name = .ok sd) : sd.revenues ≠ [] := by
  obtain ⟨sdo, ido⟩ := env
  rcases sdo with _ | segd
  · simp [prepare_segment_financials] at h
  rcases ido with _ | incd
  · simp [prepare_segment_financials] at h
  simp only [prepare_segment_financials] at h
  split_ifs at h with hif
  simp only [Except.ok.injEq] at h
  simpa [← h] using hif

/-- Loop invariant of `value_ip_asset` for a `relief_from_royalty`
asset: under the method success conditions, the loop never fails, skips
exactly the segments whose preparation fails, and accumulates the sum of
the produced per-segment totals. -/
lemma assetLoop_rfr (env : DataEnv) (asset : IPAsset) (w t g : ℚ)
    (hm : asset.valuation_method = "relief_from_royalty")
    (hw1 : 1 + w ≠ 0) (hwg : w - g ≠ 0) :
    ∀ (segs : List (String × ℚ)) (acc : ℚ × List SegValuation),
      ∃ l : List SegValuation,
        assetLoop env asset w t g acc segs =
          .ok (acc.1 + (l.map (fun sv => sv.result.total_value)).sum, acc.2 ++ l) ∧
        l.map (fun sv => (sv.segment, sv.segment_attribution)) =
          segs.filter (fun seg => (prepare_segment_financials env seg.1).isOk) := by
  intro segs
  induction segs with
  | nil => exact fun acc => ⟨[], by simp [assetLoop], by simp⟩
  | cons seg rest ih =>
    intro acc
    rcases hp : prepare_segment_financials env seg.1 with e | sd
    · obtain ⟨l, hl, hf⟩ := ih acc
      refine ⟨l, ?_, ?_⟩
      · simp only [assetLoop, hp]
        exact hl
      · rw [List.filter_cons]
        simp only [hp, Except.isOk, Except.toBool, Bool.false_eq_true, if_false]
        exact hf
    · have hne := prepare_ok_revenues_ne_nil env seg.1 sd hp
      have hattr : sd.revenues.map (fun rev => rev * seg.2) ≠ [] := by
        intro hcon
        exact hne (List.map_eq_nil_iff.mp hcon)
      obtain ⟨r0, hr0, _, _, _⟩ := rfr_spec (sd.revenues.map (fun rev => rev * seg.2))
        asset.royalty_rate t w 1 g hattr hw1 hwg
      have happ : applyMethod asset (sd.revenues.map (fun rev => rev * seg.2)) sd w t g =
          .ok (.rfr r0) := by
        simp [applyMethod, hm, hr0, Except.map]
      obtain ⟨l, hl, hf⟩ := ih (acc.1 + (MethodResult.rfr r0).total_value,
        acc.2 ++ [⟨seg.1, seg.2, .rfr r0⟩])
      refine ⟨⟨seg.1, seg.2, .rfr r0⟩ :: l, ?_, ?_⟩
      · simp only [assetLoop, hp, happ]
        rw [hl]
        simp [MethodResult.total_value, add_assoc]
      · rw [List.filter_cons]
        have hcond : (prepare_segment_financials env seg.1).isOk = true := by
          rw [hp]
          rfl
        rw [List.map_cons, hf]
        simp [hcond]

/-- Claim C3, counterexample: `assetBadMethod` has one segment that
resolves (`alpha`) and one that does not (`missing`), yet
`value_ip_asset` raises (`ValueError: Unknown valuation method`) instead
of completing, because the claim quantifies over every IP asset
including those with an unrecognized method selector. -/
theorem c3_counterexample :
    value_ip_asset envOneSeg assetBadMethod 0.10 0.21 0.02 = .error .unknownMethod ∧
    (prepare_segment_financials envOneSeg "alpha").isOk = true ∧
    (prepare_segment_financials envOneSeg "missing").isOk = false := by
  exact ⟨rfl, rfl, rfl⟩

/-- Claim C3 (amended: restricted to assets whose valuation method is
the recognized `relief_from_royalty` selector, with the method's success
conditions WACC ≠ −1 and WACC ≠ terminal growth — the counterexample
shows an unrecognized selector aborts the whole asset instead).  For
every such asset with at least one resolvable and one unresolvable
segment, `value_ip_asset` completes without raising, its
`segment_valuations` lists exactly the resolvable segments (in order),
and its `total_value` is the sum of their per-segment totals. -/
theorem c3_skip_unresolvable (env : DataEnv) (asset : IPAsset) (w t g : ℚ)
    (hm : asset.valuation_method = "relief_from_royalty")
    (hw1 : 1 + w ≠ 0) (hwg : w - g ≠ 0)
    (hres : ∃ seg ∈ asset.related_segments,
      (prepare_segment_financials env seg.1).isOk = true)
    (hunres : ∃ seg ∈ asset.related_segments,
      (prepare_segment_financials env seg.1).isOk = false) :
    ∃ av, value_ip_asset env asset w t g = .ok av ∧
      av.segment_valuations.map (fun sv => (sv.segment, sv.segment_attribution)) =
        asset.related_segments.filter
          (fun seg => (prepare_segment_financials env seg.1).isOk) ∧
      av.total_value =
        (av.segment_valuations.map (fun sv => sv.result.total_value)).sum := by
  obtain ⟨l, hl, hf⟩ :=
    assetLoop_rfr env asset w t g hm hw1 hwg asset.related_segments (0, [])
  refine ⟨⟨asset.id, (l.map (fun sv => sv.result.total_value)).sum, l⟩, ?_, ?_, ?_⟩
  · unfold value_ip_asset
    rw [hl]
    simp
  · exact hf
  · rfl

/-- Witness for C3 on the fixture: `alpha` resolves, `missing` does
not. -/
theorem c3_skip_unresolvable_witness :
    ∃ av, value_ip_asset envOneSeg assetRfR 0.10 0.21 0.02 = .ok av ∧
      av.segment_valuations.map (fun sv => (sv.segment, sv.segment_attribution)) =
        assetRfR.related_segments.filter
          (fun seg => (prepare_segment_financials envOneSeg seg.1).isOk) ∧
      av.total_value =
        (av.segment_valuations.map (fun sv => sv.result.total_value)).sum :=
  c3_skip_unresolvable envOneSeg assetRfR 0.10 0.21 0.02 rfl (by norm_num) (by norm_num)
    ⟨("alpha", 0.5), by simp [assetRfR], rfl⟩
    ⟨("missing", 0.5), by simp [assetRfR], rfl⟩

/-- For an asset whose method selector matches none of the three
recognized methods, the segment loop raises `UnknownMethod` at the first
segment that resolves. -/
lemma assetLoop_unknown (env : DataEnv) (asset : IPAsset) (w t g : ℚ)
    (hm1 : asset.valuation_method ≠ "relief_from_royalty")
    (hm2 : asset.valuation_method ≠ "excess_earnings")
    (hm3 : asset.valuation_method ≠ "technology_factor") :
    ∀ (segs : List (String × ℚ)) (acc : ℚ × List SegValuation),
      (∃ seg ∈ segs, (prepare_segment_financials env seg.1).isOk = true) →
      assetLoop env asset w t g acc segs = .error .unknownMethod := by
  intro segs
  induction segs with
  | nil =>
    intro acc h
    obtain ⟨seg, hmem, _⟩ := h
    exact absurd hmem (List.not_mem_nil seg)
  | cons seg rest ih =>
    intro acc h
    rcases hp : prepare_segment_financials env seg.1 with e | sd
    · simp only [assetLoop, hp]
      apply ih
      obtain ⟨seg2, hmem, hok⟩ := h
      rcases List.mem_cons.mp hmem with rfl | hmem2
      · rw [hp] at hok
        exact absurd hok (by simp [Except.isOk, Except.toBool])
      · exact ⟨seg2, hmem2, hok⟩
    · have happ : applyMethod asset (sd.revenues.map (fun rev => rev * seg.2)) sd w t g =
          .error .unknownMethod := by
        unfold applyMethod
        rw [if_neg hm1, if_neg hm2, if_neg hm3]
      simp only [assetLoop, hp, happ]

/-- Claim C8 (amended): an unrecognized valuation-method selector makes
`value_ip_asset` fail with `UnknownMethod` provided at least one of the
asset's segments resolves (if none does, every segment is skipped and no
method is ever invoked) — but `value_ip_portfolio` does NOT propagate
it: the portfolio loop catches every exception and skips the asset, so
valuing a portfolio containing the malformed asset returns normally with
that asset omitted. -/
theorem c8_unknown_method (env : DataEnv) (asset : IPAsset) (w t g : ℚ)
    (hm1 : asset.valuation_method ≠ "relief_from_royalty")
    (hm2 : asset.valuation_method ≠ "excess_earnings")
    (hm3 : asset.valuation_method ≠ "technology_factor")
    (hres : ∃ seg ∈ asset.related_segments,
      (prepare_segment_financials env seg.1).isOk = true) :
    value_ip_asset env asset w t g = .error .unknownMethod ∧
    ∀ rest, value_ip_portfolio env (asset :: rest) w t g =
      value_ip_portfolio env rest w t g := by
  have hloop := assetLoop_unknown env asset w t g hm1 hm2 hm3 asset.related_segments
    (0, []) hres
  have hasset : value_ip_asset env asset w t g = .error .unknownMethod := by
    unfold value_ip_asset
    rw [hloop]
  refine ⟨hasset, ?_⟩
  intro rest
  unfold value_ip_portfolio
  rw [List.filterMap_cons, hasset]

/-- Claim C8, counterexample to the propagation half: for the malformed
asset `assetBadMethod`, `value_ip_asset` does raise `UnknownMethod`, yet
`value_ip_portfolio` on a portfolio containing it returns a normal
(empty) portfolio valuation — the error is swallowed at the portfolio
level, not propagated to the caller. -/
theorem c8_counterexample :
    value_ip_asset envOneSeg assetBadMethod 0.10 0.21 0.02 = .error .unknownMethod ∧
    value_ip_portfolio envOneSeg [assetBadMethod] 0.10 0.21 0.02 =
      { total_portfolio_value := 0, asset_count := 0, asset_valuations := [] } := by
  exact ⟨rfl, rfl⟩

/-- Witness for C8 on the fixture. -/
theorem c8_unknown_method_witness :
    value_ip_asset envOneSeg assetBadMethod 0.10 0.21 0.02 = .error .unknownMethod ∧
    value_ip_portfolio envOneSeg [assetBadMethod] 0.10 0.21 0.02 =
      value_ip_portfolio envOneSeg [] 0.10 0.21 0.02 := by
  obtain ⟨h1, h2⟩ := c8_unknown_method envOneSeg assetBadMethod 0.10 0.21 0.02
    (by decide) (by decide) (by decide) ⟨("alpha", 0.5), by simp [assetBadMethod], rfl⟩
  exact ⟨h1, h2 []⟩
